import Mathlib

/-!
Verification of the OpenWeatherMap ETL pipeline (src/main.py).

Modelling conventions (shallow embedding):
* Numeric weather fields (temperature, feels_like, wind_speed) are modelled
  as exact rationals `ℚ`; integer fields (humidity, pressure) as `ℤ`.
* Timestamps (observation `dt`, sunrise, sunset, the etl timestamp) are
  modelled as `ℤ` epoch seconds; `datetime.fromtimestamp` is order-preserving
  and injective, so comparisons on datetimes coincide with comparisons on the
  underlying epoch values.
* The per-location HTTP fetch (`requests.get` + `raise_for_status` +
  `json()` + key lookups) is modelled as an oracle
  `fetch : String → FetchOutcome` passed to `extract`: a non-success HTTP
  status yields `httpError`, a response missing a required key yields
  `missingField`, and a well-formed response yields a `RawObservation`.
* The PostgreSQL side effects (`psycopg2.connect`, `CREATE TABLE IF NOT
  EXISTS`, `execute_values`, `commit`) are modelled by an environment of
  success flags (`Env`) and an explicit database state (`DBState`); a commit
  appends rows, an exception leaves the committed rows unchanged.
* `pandas.DataFrame` batches are modelled as ordered `List`s of records;
  DataFrame column order is tracked explicitly (`dfColumns`), since the
  INSERT statement is built from `df.columns.tolist()`.
-/

namespace WeatherETL

/-- The provider response fields read by `extract` in src/main.py
(`sys.country`, `main.temp`, `main.feels_like`, `main.humidity`,
`main.pressure`, `wind.speed`, `weather[0].main`, `weather[0].description`,
`dt`, `sys.sunrise`, `sys.sunset`). -/
structure RawObservation where
  country : String
  temp : ℚ
  feels_like : ℚ
  humidity : ℤ
  pressure : ℤ
  wind_speed : ℚ
  weather_main : String
  weather_description : String
  dt : ℤ
  sunrise : ℤ
  sunset : ℤ
deriving Repr, DecidableEq

/-- One flat record of the DataFrame built by `extract`
(the `processed_data` dict of src/main.py, lines 71-84). -/
structure Observation where
  city : String
  country : String
  temperature : ℚ
  feels_like : ℚ
  humidity : ℤ
  pressure : ℤ
  wind_speed : ℚ
  weather_main : String
  weather_description : String
  timestamp : ℤ
  sunrise : ℤ
  sunset : ℤ
deriving Repr, DecidableEq

/-- One record of the DataFrame returned by `transform`: the source fields
plus the six derived columns, in the order `transform` adds them. -/
structure EnrichedObservation where
  city : String
  country : String
  temperature : ℚ
  feels_like : ℚ
  humidity : ℤ
  pressure : ℤ
  wind_speed : ℚ
  weather_main : String
  weather_description : String
  timestamp : ℤ
  sunrise : ℤ
  sunset : ℤ
  etl_timestamp : ℤ
  day_night : String
  temperature_f : ℚ
  feels_like_f : ℚ
  temp_category : String
  data_quality : String
deriving Repr, DecidableEq

/-- `is_daytime` (src/main.py lines 111-115): `'Day' if sunrise <=
current_time <= sunset else 'Night'`, on the row's timestamp fields. -/
def is_daytime (timestamp sunrise sunset : ℤ) : String :=
  if sunrise ≤ timestamp ∧ timestamp ≤ sunset then "Day" else "Night"

/-- `temp_category` (src/main.py lines 128-138): the if/elif chain over the
temperature in Celsius. -/
def temp_category (temp : ℚ) : String :=
  if temp < 0 then "Very Cold"
  else if temp < 10 then "Cold"
  else if temp < 20 then "Mild"
  else if temp < 30 then "Warm"
  else "Hot"

/-- The `data_quality` column (src/main.py lines 143-147): default `'Good'`,
then overwritten with `'Suspicious'` on the rows with `temperature > 50`,
then on the rows with `temperature < -50`. -/
def data_quality (temp : ℚ) : String :=
  if temp > 50 then "Suspicious"
  else if temp < -50 then "Suspicious"
  else "Good"

/-- The per-record effect of `transform` (src/main.py lines 99-150): keeps
every source column and adds `etl_timestamp` (the batch-wide `now`),
`day_night`, `temperature_f = temperature * 9/5 + 32`,
`feels_like_f = feels_like * 9/5 + 32`, `temp_category`, `data_quality`. -/
def transformRecord (now : ℤ) (o : Observation) : EnrichedObservation :=
  { city := o.city
    country := o.country
    temperature := o.temperature
    feels_like := o.feels_like
    humidity := o.humidity
    pressure := o.pressure
    wind_speed := o.wind_speed
    weather_main := o.weather_main
    weather_description := o.weather_description
    timestamp := o.timestamp
    sunrise := o.sunrise
    sunset := o.sunset
    etl_timestamp := now
    day_night := is_daytime o.timestamp o.sunrise o.sunset
    temperature_f := o.temperature * 9 / 5 + 32
    feels_like_f := o.feels_like * 9 / 5 + 32
    temp_category := temp_category o.temperature
    data_quality := data_quality o.temperature }

/-- `transform` (src/main.py lines 99-150): the column assignments and
`df.apply(..., axis=1)` act row-wise on the DataFrame, so the batch effect is
a map of `transformRecord` over the rows, with a single `now`
(`datetime.now()` is evaluated once, at line 108, for the whole batch). -/
def transform (now : ℤ) (observations : List Observation) :
    List EnrichedObservation :=
  observations.map (transformRecord now)

/-- The source-field projection of an enriched record: the twelve columns
that already existed before `transform` ran. -/
def sourceOf (e : EnrichedObservation) : Observation :=
  { city := e.city
    country := e.country
    temperature := e.temperature
    feels_like := e.feels_like
    humidity := e.humidity
    pressure := e.pressure
    wind_speed := e.wind_speed
    weather_main := e.weather_main
    weather_description := e.weather_description
    timestamp := e.timestamp
    sunrise := e.sunrise
    sunset := e.sunset }

/-- Outcome of the per-location fetch oracle: `requests.get` followed by
`raise_for_status` (non-2xx status raises), `response.json()` and the key
lookups of src/main.py lines 71-84 (a missing key raises `KeyError`). -/
inductive FetchOutcome where
  | httpError (status : ℕ)
  | missingField (field : String)
  | success (raw : RawObservation)
deriving Repr, DecidableEq

/-- Exceptions that can escape `extract`: `ValueError("Missing API key")`
(src/main.py line 50, the spec's ConfigurationError), an HTTP error from
`raise_for_status` (the spec's RetrievalError), and a `KeyError` on a
malformed response (the spec's ParseError). -/
inductive ExtractError where
  | missingApiKey
  | requestError (city : String) (status : ℕ)
  | parseError (city : String) (field : String)
deriving Repr, DecidableEq

/-- The `processed_data` dict built for one city (src/main.py lines 71-84). -/
def buildObservation (city : String) (raw : RawObservation) : Observation :=
  { city := city
    country := raw.country
    temperature := raw.temp
    feels_like := raw.feels_like
    humidity := raw.humidity
    pressure := raw.pressure
    wind_speed := raw.wind_speed
    weather_main := raw.weather_main
    weather_description := raw.weather_description
    timestamp := raw.dt
    sunrise := raw.sunrise
    sunset := raw.sunset }

/-- The `for city in CITIES` loop of `extract` (src/main.py lines 55-87).
Returns the list of cities for which a network request was issued together
with the result: the first raised exception aborts the loop (the
`try`/`except` block at lines 95-97 re-raises), so a failure surfaces no
partial batch. -/
def extractLoop (fetch : String → FetchOutcome) :
    List String → List String × Except ExtractError (List Observation)
  | [] => ([], .ok [])
  | city :: rest =>
    match fetch city with
    | .httpError status => ([city], .error (.requestError city status))
    | .missingField f => ([city], .error (.parseError city f))
    | .success raw =>
      let (calls, res) := extractLoop fetch rest
      (city :: calls,
        match res with
        | .error e => .error e
        | .ok obs => .ok (buildObservation city raw :: obs))

/-- `extract` (src/main.py lines 41-97). `API_KEY` is `os.getenv(...)`, so it
is either absent (`none`) or a string; `if not API_KEY` is true exactly when
it is `None` or the empty string, and then `ValueError` is raised before the
loop (hence before any network request). The first component of the result is
the list of cities for which a request was issued. -/
def extract (apiKey : Option String) (fetch : String → FetchOutcome)
    (cities : List String) :
    List String × Except ExtractError (List Observation) :=
  if (apiKey.getD "").isEmpty then ([], .error .missingApiKey)
  else extractLoop fetch cities

/-- A cell value of the destination table, tagged by type. -/
inductive Value where
  | str (s : String)
  | rat (q : ℚ)
  | int (n : ℤ)
deriving Repr, DecidableEq

/-- The columns of `CREATE TABLE IF NOT EXISTS current_weather` (src/main.py
lines 160-182), in DDL order. -/
def schemaColumns : List String :=
  ["id", "city", "country", "temperature", "temperature_f", "feels_like",
   "feels_like_f", "humidity", "pressure", "wind_speed", "weather_main",
   "weather_description", "timestamp", "sunrise", "sunset", "day_night",
   "temp_category", "data_quality", "etl_timestamp"]

/-- The key order of the `processed_data` dict (src/main.py lines 71-84),
which `pd.DataFrame` keeps as the column order of the extracted frame. -/
def observationColumns : List String :=
  ["city", "country", "temperature", "feels_like", "humidity", "pressure",
   "wind_speed", "weather_main", "weather_description", "timestamp",
   "sunrise", "sunset"]

/-- The columns `transform` appends, in the order of its assignments
(src/main.py lines 108, 117, 120, 125, 140, 143). -/
def transformAddedColumns : List String :=
  ["etl_timestamp", "day_night", "temperature_f", "feels_like_f",
   "temp_category", "data_quality"]

/-- Column order of the transformed DataFrame: the extracted columns followed
by the columns `transform` adds. -/
def dfColumns : List String := observationColumns ++ transformAddedColumns

/-- `df.columns.tolist()` at src/main.py line 226: the column list spliced
into `INSERT INTO current_weather ({columns_str})`. -/
def insertColumns : List String := dfColumns

/-- The cell of an enriched record under a given column name (`none` for a
name that is not a column of the transformed DataFrame). -/
def colValue (e : EnrichedObservation) : String → Option Value
  | "city" => some (.str e.city)
  | "country" => some (.str e.country)
  | "temperature" => some (.rat e.temperature)
  | "feels_like" => some (.rat e.feels_like)
  | "humidity" => some (.int e.humidity)
  | "pressure" => some (.int e.pressure)
  | "wind_speed" => some (.rat e.wind_speed)
  | "weather_main" => some (.str e.weather_main)
  | "weather_description" => some (.str e.weather_description)
  | "timestamp" => some (.int e.timestamp)
  | "sunrise" => some (.int e.sunrise)
  | "sunset" => some (.int e.sunset)
  | "etl_timestamp" => some (.int e.etl_timestamp)
  | "day_night" => some (.str e.day_night)
  | "temperature_f" => some (.rat e.temperature_f)
  | "feels_like_f" => some (.rat e.feels_like_f)
  | "temp_category" => some (.str e.temp_category)
  | "data_quality" => some (.str e.data_quality)
  | _ => none

/-- One tuple of `df.itertuples(index=False)` (src/main.py line 229): the
record's cells in DataFrame column order. -/
def rowValues (e : EnrichedObservation) : List (Option Value) :=
  dfColumns.map (colValue e)

/-- Exceptions that can escape `create_table`/`load` (src/main.py lines
202-204 and 249-251): all are logged and re-raised; the spec groups them as
SchemaError/LoadError. -/
inductive LoadError where
  | connectionFailed
  | ddlFailed
  | insertFailed
deriving Repr, DecidableEq

/-- Success flags of the external PostgreSQL effects: whether
`psycopg2.connect` succeeds, whether the `CREATE TABLE IF NOT EXISTS`
statement succeeds, and whether `execute_values` + `commit` succeeds. -/
structure Env where
  connectOk : Bool
  ddlOk : Bool
  insertOk : Bool
deriving Repr, DecidableEq

/-- Committed state of the destination database: whether `current_weather`
exists and its committed rows (each a tuple in insert order). -/
structure DBState where
  tableExists : Bool
  rows : List (List (Option Value))
deriving Repr, DecidableEq

/-- `create_table` (src/main.py lines 156-204): connects, runs `CREATE TABLE
IF NOT EXISTS` and commits; on any exception the error is re-raised and the
committed state is unchanged. -/
def create_table (env : Env) (db : DBState) : Except LoadError DBState :=
  if ¬ env.connectOk then .error .connectionFailed
  else if ¬ env.ddlOk then .error .ddlFailed
  else .ok { db with tableExists := true }

/-- Result of one `load` call: the committed database state, the exception
re-raised (if any), the row count in the success log message (src/main.py
line 247), and the Python return value of the function. -/
structure LoadResult where
  db : DBState
  err : Option LoadError
  loggedCount : Option ℕ
  returned : Option ℕ
deriving Repr, DecidableEq

/-- `load` (src/main.py lines 206-251): connects, calls `create_table`,
builds the tuple list and the INSERT from `df.columns.tolist()`, runs
`execute_values` and commits once; logs `"Successfully loaded {len(df)} ..."`
on success and falls off the end (Python returns `None`). On any exception
the error is re-raised with no row committed (the single `commit` at line 242
was not reached). -/
def load (env : Env) (db : DBState) (records : List EnrichedObservation) :
    LoadResult :=
  if ¬ env.connectOk then ⟨db, some .connectionFailed, none, none⟩
  else
    match create_table env db with
    | .error e => ⟨db, some e, none, none⟩
    | .ok db1 =>
      if ¬ env.insertOk then ⟨db1, some .insertFailed, none, none⟩
      else ⟨{ db1 with rows := db1.rows ++ records.map rowValues }, none,
            some records.length, none⟩

/-- The stage at which a pipeline run failed. -/
inductive ETLError where
  | extractFailed (e : ExtractError)
  | loadFailed (e : LoadError)
deriving Repr, DecidableEq

/-- Observable outcome of one `run_etl_pipeline` call: which cities were
fetched over the network, whether `load` was invoked, the error re-raised
(if any), and the final committed database state. -/
structure PipelineResult where
  networkCalls : List String
  loadInvoked : Bool
  err : Option ETLError
  db : DBState
deriving Repr, DecidableEq

/-- `run_etl_pipeline` (src/main.py lines 253-273): `extract`, then
`transform`, then `load`, each stage only when the previous one returned;
any exception is logged and re-raised, so a failed stage prevents the later
stages from being invoked. -/
def run_etl_pipeline (apiKey : Option String) (fetch : String → FetchOutcome)
    (cities : List String) (now : ℤ) (env : Env) (db : DBState) :
    PipelineResult :=
  match extract apiKey fetch cities with
  | (calls, .error e) => ⟨calls, false, some (.extractFailed e), db⟩
  | (calls, .ok observations) =>
    let lr := load env db (transform now observations)
    ⟨calls, true, lr.err.map .loadFailed, lr.db⟩

/-- A concrete extracted record (the end-to-end scenario values: 22.5 °C,
feels like 21.0 °C, observed one hour after sunrise). -/
def sampleObservation : Observation :=
  { city := "London, UK"
    country := "GB"
    temperature := 45/2
    feels_like := 21
    humidity := 60
    pressure := 1012
    wind_speed := 16/5
    weather_main := "Clouds"
    weather_description := "overcast"
    timestamp := 1000 + 3600
    sunrise := 1000
    sunset := 1000 + 43200 }

/-- A concrete well-formed provider response. -/
def sampleRaw : RawObservation :=
  { country := "GB"
    temp := 45/2
    feels_like := 21
    humidity := 60
    pressure := 1012
    wind_speed := 16/5
    weather_main := "Clouds"
    weather_description := "overcast"
    dt := 1000 + 3600
    sunrise := 1000
    sunset := 1000 + 43200 }

/-- A fetch oracle that returns HTTP 404 for one city and succeeds
elsewhere. -/
def fetchFails (c : String) : FetchOutcome :=
  if c = "Paris, FR" then .httpError 404 else .success sampleRaw

/-- A fetch oracle that succeeds for every city. -/
def fetchSucceeds (_ : String) : FetchOutcome := .success sampleRaw

/-- The configured city list (src/main.py lines 30-36). -/
def CITIES : List String :=
  ["London, UK", "New York, US", "Tokyo, JP", "Sydney, AU",
   "Rio de Janeiro, BR"]

/-- The sample observation after enrichment with etl timestamp 5000. -/
def sampleEnriched : EnrichedObservation := transformRecord 5000 sampleObservation

/-- A fully successful external environment. -/
def envOk : Env := { connectOk := true, ddlOk := true, insertOk := true }

/-- A database with no table and no committed rows. -/
def dbEmpty : DBState := { tableExists := false, rows := [] }

lemma sourceOf_transformRecord (now : ℤ) (o : Observation) :
    sourceOf (transformRecord now o) = o := rfl

/-- C1: for every record, the temperature category is a discrete bucket over
the temperature in Celsius with half-open lower bounds: `< 0` yields
"Very Cold", `[0,10)` yields "Cold", `[10,20)` yields "Mild", `[20,30)`
yields "Warm", `≥ 30` yields "Hot"; a temperature exactly at 0, 10, 20 or 30
falls into the upper bucket. -/
theorem temp_category_buckets (t : ℚ) :
    (t < 0 → temp_category t = "Very Cold") ∧
    (0 ≤ t → t < 10 → temp_category t = "Cold") ∧
    (10 ≤ t → t < 20 → temp_category t = "Mild") ∧
    (20 ≤ t → t < 30 → temp_category t = "Warm") ∧
    (30 ≤ t → temp_category t = "Hot") := by
  unfold temp_category
  refine ⟨?_, ?_, ?_, ?_, ?_⟩ <;> intros <;> split_ifs <;>
    first | rfl | linarith

/-- Witness for C1 at the bucket boundaries: 0, 10, 20 and 30 each land in
the upper bucket, and a negative temperature is "Very Cold". -/
theorem temp_category_buckets_witness :
    temp_category (-1) = "Very Cold" ∧ temp_category 0 = "Cold" ∧
    temp_category 10 = "Mild" ∧ temp_category 20 = "Warm" ∧
    temp_category 30 = "Hot" :=
  ⟨(temp_category_buckets (-1)).1 (by norm_num),
   (temp_category_buckets 0).2.1 le_rfl (by norm_num),
   (temp_category_buckets 10).2.2.1 le_rfl (by norm_num),
   (temp_category_buckets 20).2.2.2.1 le_rfl (by norm_num),
   (temp_category_buckets 30).2.2.2.2 le_rfl⟩

/-- C2: the data quality flag is "Suspicious" iff the temperature in Celsius
is strictly greater than 50 or strictly less than -50, and "Good" otherwise;
at exactly 50 or exactly -50 it is "Good". -/
theorem data_quality_iff (t : ℚ) :
    (data_quality t = "Suspicious" ↔ 50 < t ∨ t < -50) ∧
    (data_quality t = "Good" ↔ ¬ (50 < t ∨ t < -50)) := by
  have hne : ("Suspicious" : String) ≠ "Good" := by decide
  unfold data_quality
  split_ifs with h1 h2
  · exact ⟨⟨fun _ => Or.inl h1, fun _ => rfl⟩,
      ⟨fun h => absurd h hne, fun h => absurd (Or.inl h1) h⟩⟩
  · exact ⟨⟨fun _ => Or.inr h2, fun _ => rfl⟩,
      ⟨fun h => absurd h hne, fun h => absurd (Or.inr h2) h⟩⟩
  · refine ⟨⟨fun h => absurd h.symm hne, fun h => ?_⟩,
      ⟨fun _ => fun h => ?_, fun _ => rfl⟩⟩
    · rcases h with h | h
      · exact absurd h h1
      · exact absurd h h2
    · rcases h with h | h
      · exact absurd h h1
      · exact absurd h h2

/-- Witness for C2: exactly 50 and exactly -50 are "Good", just past them is
"Suspicious". -/
theorem data_quality_iff_witness :
    data_quality 50 = "Good" ∧ data_quality (-50) = "Good" ∧
    data_quality (501/10) = "Suspicious" ∧
    data_quality (-501/10) = "Suspicious" :=
  ⟨(data_quality_iff 50).2.mpr (by norm_num),
   (data_quality_iff (-50)).2.mpr (by norm_num),
   (data_quality_iff (501/10)).1.mpr (Or.inl (by norm_num)),
   (data_quality_iff (-501/10)).1.mpr (Or.inr (by norm_num))⟩

/-- C3: the day/night indicator is "Day" iff
sunrise ≤ observation timestamp ≤ sunset, both bounds inclusive, and "Night"
otherwise; equality with either bound yields "Day". -/
theorem is_daytime_iff (ts sr ss : ℤ) :
    (is_daytime ts sr ss = "Day" ↔ sr ≤ ts ∧ ts ≤ ss) ∧
    (is_daytime ts sr ss = "Night" ↔ ¬ (sr ≤ ts ∧ ts ≤ ss)) := by
  have hne : ("Day" : String) ≠ "Night" := by decide
  unfold is_daytime
  split_ifs with h
  · exact ⟨⟨fun _ => h, fun _ => rfl⟩,
      ⟨fun hd => absurd hd hne, fun hn => absurd h hn⟩⟩
  · exact ⟨⟨fun hd => absurd hd.symm hne, fun hd => absurd hd h⟩,
      ⟨fun _ => h, fun _ => rfl⟩⟩

/-- Witness for C3: a timestamp equal to sunrise or to sunset is "Day"; one
second before sunrise is "Night". -/
theorem is_daytime_iff_witness :
    is_daytime 1000 1000 44200 = "Day" ∧
    is_daytime 44200 1000 44200 = "Day" ∧
    is_daytime 999 1000 44200 = "Night" :=
  ⟨(is_daytime_iff 1000 1000 44200).1.mpr (by norm_num),
   (is_daytime_iff 44200 1000 44200).1.mpr (by norm_num),
   (is_daytime_iff 999 1000 44200).2.mpr (by norm_num)⟩

/-- C4: in every record produced by `transform`, the Fahrenheit fields equal
the exact linear conversion of the corresponding stored Celsius fields:
`temperature_f = temperature * 9/5 + 32` and
`feels_like_f = feels_like * 9/5 + 32`. -/
theorem fahrenheit_conversion (now : ℤ) (observations : List Observation)
    (e : EnrichedObservation) (h : e ∈ transform now observations) :
    e.temperature_f = e.temperature * 9 / 5 + 32 ∧
    e.feels_like_f = e.feels_like * 9 / 5 + 32 := by
  rcases List.mem_map.mp h with ⟨o, _, rfl⟩
  exact ⟨rfl, rfl⟩

/-- Witness for C4 on a concrete one-record batch (temperature 22.5 °C maps
to 72.5 °F). -/
theorem fahrenheit_conversion_witness :
    ∃ e : EnrichedObservation,
      e ∈ transform 5000 [sampleObservation] ∧
      e.temperature_f = e.temperature * 9 / 5 + 32 ∧
      e.feels_like_f = e.feels_like * 9 / 5 + 32 ∧
      e.temperature_f = 145/2 :=
  ⟨transformRecord 5000 sampleObservation,
   List.mem_singleton.mpr rfl,
   (fahrenheit_conversion 5000 [sampleObservation] _
      (List.mem_singleton.mpr rfl)).1,
   (fahrenheit_conversion 5000 [sampleObservation] _
      (List.mem_singleton.mpr rfl)).2,
   by norm_num [transformRecord, sampleObservation]⟩

/-- C5: within one call of `transform`, every record of the output batch
carries the same single etl timestamp `now`, evaluated once at call start
and applied uniformly. -/
theorem etl_timestamp_uniform (now : ℤ) (observations : List Observation) :
    (transform now observations).map (fun e => e.etl_timestamp) =
      List.replicate observations.length now := by
  induction observations with
  | nil => rfl
  | cons o rest ih =>
      simpa [transform, transformRecord, List.replicate_succ] using ih

/-- C6: `transform` returns a batch of the same length in the same order
(1:1, no filtering, no merging), and the source fields of every record pass
through unchanged — the derived fields are strictly additive. -/
theorem transform_preserves_sources (now : ℤ)
    (observations : List Observation) :
    (transform now observations).length = observations.length ∧
    (transform now observations).map sourceOf = observations := by
  refine ⟨List.length_map _ _, ?_⟩
  induction observations with
  | nil => rfl
  | cons o rest ih =>
      simpa [transform, sourceOf_transformRecord] using ih

/-- Whether the per-location fetch raised no exception. -/
def fetchOk : FetchOutcome → Bool
  | .success _ => true
  | _ => false

lemma extractLoop_snd (fetch : String → FetchOutcome) (city : String)
    (rest : List String) :
    (extractLoop fetch (city :: rest)).2 =
      match fetch city with
      | .httpError status => .error (.requestError city status)
      | .missingField f => .error (.parseError city f)
      | .success raw =>
          match (extractLoop fetch rest).2 with
          | .error e => .error e
          | .ok obs => .ok (buildObservation city raw :: obs) := by
  cases hf : fetch city <;> cases hrec : extractLoop fetch rest <;>
    simp [extractLoop, hf, hrec]

lemma extractLoop_error_of_fail (fetch : String → FetchOutcome) :
    ∀ cities : List String, (∃ c ∈ cities, fetchOk (fetch c) = false) →
      ∃ e, (extractLoop fetch cities).2 = .error e := by
  intro cities
  induction cities with
  | nil => rintro ⟨c, hc, _⟩; simp at hc
  | cons city rest ih =>
      rintro ⟨c, hc, hfail⟩
      rw [extractLoop_snd]
      cases hfetch : fetch city with
      | httpError status => exact ⟨.requestError city status, rfl⟩
      | missingField f => exact ⟨.parseError city f, rfl⟩
      | success raw =>
          have hcrest : c ∈ rest := by
            rcases List.mem_cons.mp hc with rfl | h
            · rw [hfetch] at hfail; simp [fetchOk] at hfail
            · exact h
          obtain ⟨e, he⟩ := ih ⟨c, hcrest, hfail⟩
          rw [he]
          exact ⟨e, rfl⟩

lemma extractLoop_ok_of_success (fetch : String → FetchOutcome)
    (raws : String → RawObservation) :
    ∀ cities : List String, (∀ c ∈ cities, fetch c = .success (raws c)) →
      (extractLoop fetch cities).2 =
        .ok (cities.map fun c => buildObservation c (raws c)) := by
  intro cities
  induction cities with
  | nil => intro _; rfl
  | cons city rest ih =>
      intro h
      rw [extractLoop_snd, h city (List.mem_cons_self city rest),
          ih (fun c hc => h c (List.mem_cons_of_mem city hc))]
      rfl

/-- C7: with a credential present, a failed fetch for any single location
makes the whole `extract` call fail (no partial batch is surfaced — the
error variant carries no observations), and when every fetch succeeds
`extract` yields exactly one `Observation` per requested location, in input
order. -/
theorem extract_fail_fast_or_complete (apiKey : Option String)
    (fetch : String → FetchOutcome) (cities : List String)
    (hkey : (apiKey.getD "").isEmpty = false) :
    ((∃ c ∈ cities, fetchOk (fetch c) = false) →
       ∃ e, (extract apiKey fetch cities).2 = .error e) ∧
    (∀ raws : String → RawObservation,
       (∀ c ∈ cities, fetch c = .success (raws c)) →
       (extract apiKey fetch cities).2 =
         .ok (cities.map fun c => buildObservation c (raws c))) := by
  constructor
  · intro hex
    obtain ⟨e, he⟩ := extractLoop_error_of_fail fetch cities hex
    exact ⟨e, by simp [extract, hkey, he]⟩
  · intro raws hall
    simp [extract, hkey, extractLoop_ok_of_success fetch raws cities hall]

/-- Witness for C7: a two-city batch whose second fetch returns HTTP 404
makes the whole call fail, and a fully successful two-city batch yields the
two observations in input order. -/
theorem extract_fail_fast_or_complete_witness :
    (∃ e, (extract (some "k") fetchFails ["London, UK", "Paris, FR"]).2 =
       .error e) ∧
    (extract (some "k") fetchSucceeds ["London, UK", "Paris, FR"]).2 =
      .ok (["London, UK", "Paris, FR"].map
        fun c => buildObservation c sampleRaw) :=
  ⟨(extract_fail_fast_or_complete (some "k") fetchFails
      ["London, UK", "Paris, FR"] (by decide)).1
      ⟨"Paris, FR", by simp, by decide⟩,
   (extract_fail_fast_or_complete (some "k") fetchSucceeds
      ["London, UK", "Paris, FR"] (by decide)).2
      (fun _ => sampleRaw) (fun c _ => rfl)⟩

/-- C8: with the credential absent (unset or empty), the pipeline fails with
the missing-key error before any network call (`networkCalls = []`),
`load` is never invoked, and the database is untouched. -/
theorem missing_key_aborts (apiKey : Option String)
    (fetch : String → FetchOutcome) (cities : List String) (now : ℤ)
    (env : Env) (db : DBState) (h : (apiKey.getD "").isEmpty = true) :
    (run_etl_pipeline apiKey fetch cities now env db).networkCalls = [] ∧
    (run_etl_pipeline apiKey fetch cities now env db).loadInvoked = false ∧
    (run_etl_pipeline apiKey fetch cities now env db).err =
      some (.extractFailed .missingApiKey) ∧
    (run_etl_pipeline apiKey fetch cities now env db).db = db := by
  simp [run_etl_pipeline, extract, h]

/-- Witness for C8 with the unset credential and the configured city list. -/
theorem missing_key_aborts_witness :
    (run_etl_pipeline none fetchSucceeds CITIES 5000 envOk
        dbEmpty).networkCalls = [] ∧
    (run_etl_pipeline none fetchSucceeds CITIES 5000 envOk
        dbEmpty).loadInvoked = false ∧
    (run_etl_pipeline none fetchSucceeds CITIES 5000 envOk dbEmpty).err =
      some (.extractFailed .missingApiKey) ∧
    (run_etl_pipeline none fetchSucceeds CITIES 5000 envOk dbEmpty).db =
      dbEmpty :=
  missing_key_aborts none fetchSucceeds CITIES 5000 envOk dbEmpty (by decide)

/-- Counterexample to C9 as stated: on a fully successful one-record load no
exception is raised, yet the function's return value is `None` — the row
count `1` is logged (src/main.py line 247) but not returned (`load` has no
return statement). -/
theorem load_returned_counterexample :
    (load envOk dbEmpty [sampleEnriched]).err = none ∧
    (load envOk dbEmpty [sampleEnriched]).loggedCount = some 1 ∧
    (load envOk dbEmpty [sampleEnriched]).returned = none ∧
    (load envOk dbEmpty [sampleEnriched]).returned ≠ some 1 := by
  refine ⟨rfl, rfl, rfl, by simp [load, envOk, create_table, dbEmpty]⟩

/-- C9 amended: on success, `load` reports (in its log message) the count of
rows written — exactly N for a batch of N records, all committed in one
operation — while returning `None` rather than the count; on failure it
raises an error with zero rows committed. -/
theorem load_reports_count (env : Env) (db : DBState)
    (records : List EnrichedObservation) :
    ((load env db records).err = none →
       (load env db records).loggedCount = some records.length ∧
       (load env db records).db.rows = db.rows ++ records.map rowValues ∧
       (load env db records).returned = none) ∧
    ((load env db records).err ≠ none →
       (load env db records).db.rows = db.rows) := by
  by_cases h1 : env.connectOk <;> by_cases h2 : env.ddlOk <;>
    by_cases h3 : env.insertOk <;> simp [load, create_table, h1, h2, h3]

/-- Witness for C9 amended on a successful one-record load. -/
theorem load_reports_count_witness :
    (load envOk dbEmpty [sampleEnriched]).loggedCount = some 1 ∧
    (load envOk dbEmpty [sampleEnriched]).db.rows =
      dbEmpty.rows ++ [sampleEnriched].map rowValues ∧
    (load envOk dbEmpty [sampleEnriched]).returned = none := by
  simpa using (load_reports_count envOk dbEmpty [sampleEnriched]).1 rfl

/-- Counterexample to C10 as stated: the column list of the INSERT
(`df.columns.tolist()`, source columns first, derived columns appended) is
not equal to the column order of the `CREATE TABLE` statement with the
generated `id` removed — e.g. position 3 is `feels_like` in the insert but
`temperature_f` in the schema — and the mismatching load nevertheless
succeeds rather than failing fast. -/
theorem insert_order_mismatch_counterexample :
    insertColumns ≠ schemaColumns.drop 1 ∧
    (load envOk dbEmpty [sampleEnriched]).err = none :=
  ⟨by decide, rfl⟩

/-- C10 amended: the INSERT names its columns explicitly; its column list is
a permutation of (though not positionally equal to) the schema's
EnrichedObservation columns, contains no duplicates, and every row tuple
lists the cells in exactly the insert's column order, so values bind to
columns by name and no misaligned data is inserted. -/
theorem insert_columns_align_by_name :
    List.Perm insertColumns (schemaColumns.drop 1) ∧
    insertColumns.Nodup ∧
    ∀ e : EnrichedObservation, rowValues e = insertColumns.map (colValue e) :=
  ⟨by decide, by decide, fun _ => rfl⟩

end WeatherETL
